import Mathlib

/-!
Verification development for the AerisQ drought-analysis engine.

The computational core (the "Physicist" routine behind `api/index.py`) is
described by the repository's specification and documentation; the numeric
stages below are shallow embeddings of that description, with decibel values
represented as rationals.  The client-side job poller is embedded directly
from `frontend/lib/api.ts`.
-/

namespace Aerisq

/-- The five drought severity classes, ordered from wettest to driest. -/
inductive DroughtSeverity
  | NORMAL
  | MILD
  | MODERATE
  | SEVERE
  | EXTREME
deriving DecidableEq, Repr

/-- Modelled from the spec: the Severity Classifier (§4.5) for VV polarization,
an ordered threshold chain applied to `mean_sigma0_db`, first match wins:
`> -10` NORMAL, `> -12` MILD, `> -15` MODERATE, `> -18` SEVERE, else EXTREME.
The concrete classifier code (`api/index.py`) is not committed in the repo. -/
def classifySeverity (m : ℚ) : DroughtSeverity :=
  if -10 < m then .NORMAL
  else if -12 < m then .MILD
  else if -15 < m then .MODERATE
  else if -18 < m then .SEVERE
  else .EXTREME

/-- C1: the severity classifier is a total deterministic function of
`mean_sigma0_db`; each class corresponds exactly to one half-open-below,
closed-above interval of the VV threshold table, so every rational mean
(including boundary values such as `-10` and `-13.2`) receives exactly the
severity of the unique interval containing it. -/
theorem classifySeverity_interval_partition (m : ℚ) :
    (classifySeverity m = .NORMAL ↔ -10 < m) ∧
    (classifySeverity m = .MILD ↔ -12 < m ∧ m ≤ -10) ∧
    (classifySeverity m = .MODERATE ↔ -15 < m ∧ m ≤ -12) ∧
    (classifySeverity m = .SEVERE ↔ -18 < m ∧ m ≤ -15) ∧
    (classifySeverity m = .EXTREME ↔ m ≤ -18) := by
  unfold classifySeverity
  split_ifs with h1 h2 h3 h4 <;>
    push_neg at * <;>
    refine ⟨?_, ?_, ?_, ?_, ?_⟩ <;>
    constructor <;>
    intro h <;>
    first
      | rfl
      | linarith
      | exact ⟨by linarith, by linarith⟩
      | (exfalso; rcases h with ⟨ha, hb⟩; linarith)
      | exact absurd h (by intro hc; cases hc)

/-- True exactly on the MODERATE-or-worse (drier) classes. -/
def DroughtSeverity.atLeastModerate : DroughtSeverity → Bool
  | .NORMAL => false
  | .MILD => false
  | .MODERATE => true
  | .SEVERE => true
  | .EXTREME => true

/-- Arithmetic mean of a sample of dB values (Statistical Reducer, §4.3). -/
def mean (samples : List ℚ) : ℚ := samples.sum / samples.length

/-- Modelled from the spec: the sample variance of the Statistical Reducer
(§4.3), dividing by n-1; reported as 0 for n ≤ 1.  The serialized
`std_sigma0_db` is its square root, taken outside this rational model. -/
def sampleVariance (samples : List ℚ) : ℚ :=
  if samples.length ≤ 1 then 0
  else ((samples.map fun x => (x - mean samples) ^ 2).sum) / ((samples.length : ℚ) - 1)

/-- Modelled from the spec: `drought_percentage` (§4.5), the fraction,
expressed 0-100, of the individual backscatter samples whose own severity
class is MODERATE or worse; a separate counting pass over the sample, not a
function of the mean.  The concrete code (`api/index.py`) is not committed. -/
def droughtPercentage (samples : List ℚ) : ℚ :=
  100 * ((samples.countP fun x => (classifySeverity x).atLeastModerate : ℕ) : ℚ)
    / samples.length

/-- A sample is MODERATE-or-worse exactly when it is at most -12 dB. -/
theorem atLeastModerate_iff (x : ℚ) :
    (classifySeverity x).atLeastModerate = true ↔ x ≤ -12 := by
  unfold classifySeverity
  split_ifs with h1 h2 h3 h4 <;>
    simp [DroughtSeverity.atLeastModerate] <;> linarith

/-- C2: `drought_percentage` is the per-sample fraction (0-100) of samples at
or under the MODERATE threshold of -12 dB, and it is not derivable from the
mean (nor from mean and standard deviation): two samples with identical mean,
identical sample variance and identical size can have different
`drought_percentage`. -/
theorem droughtPercentage_per_sample_pass :
    (∀ samples : List ℚ, samples ≠ [] →
      0 ≤ droughtPercentage samples ∧ droughtPercentage samples ≤ 100 ∧
      droughtPercentage samples =
        100 * (((samples.filter fun x => x ≤ -12).length : ℕ) : ℚ) / samples.length) ∧
    (∃ s₁ s₂ : List ℚ, s₁.length = s₂.length ∧ mean s₁ = mean s₂ ∧
      sampleVariance s₁ = sampleVariance s₂ ∧
      droughtPercentage s₁ ≠ droughtPercentage s₂) := by
  constructor
  · intro samples hne
    have hlen : 0 < samples.length := List.length_pos.mpr hne
    have hlenq : (0 : ℚ) < samples.length := by exact_mod_cast hlen
    have hcount : samples.countP (fun x => (classifySeverity x).atLeastModerate)
        ≤ samples.length := List.countP_le_length _
    have hcountq : ((samples.countP fun x => (classifySeverity x).atLeastModerate : ℕ) : ℚ)
        ≤ (samples.length : ℚ) := by exact_mod_cast hcount
    refine ⟨?_, ?_, ?_⟩
    · unfold droughtPercentage
      positivity
    · unfold droughtPercentage
      rw [div_le_iff hlenq]
      nlinarith [hcountq]
    · unfold droughtPercentage
      have hfil : (samples.filter fun x => (classifySeverity x).atLeastModerate)
          = samples.filter fun x => decide (x ≤ -12) := by
        apply List.filter_congr
        intro x _
        by_cases hx : x ≤ -12
        · have hb : (classifySeverity x).atLeastModerate = true :=
            (atLeastModerate_iff x).mpr hx
          simp [hb, hx]
        · have hb : (classifySeverity x).atLeastModerate = false := by
            rw [Bool.eq_false_iff]
            intro hc
            exact hx ((atLeastModerate_iff x).mp hc)
          simp [hb, hx]
      rw [List.countP_eq_length_filter, hfil]
  · refine ⟨[-13, -13, -13, -9], [-15, -11, -11, -11], rfl, ?_, ?_, ?_⟩ <;>
      norm_num [mean, sampleVariance, droughtPercentage, classifySeverity,
        DroughtSeverity.atLeastModerate]

/-- Witness for C2: bounds and the per-sample counting form evaluated on the
concrete two-element sample [-13, -11]. -/
theorem droughtPercentage_per_sample_pass_witness :
    0 ≤ droughtPercentage [-13, -11] ∧ droughtPercentage [-13, -11] ≤ 100 ∧
    droughtPercentage [-13, -11] =
      100 * (((([-13, -11] : List ℚ).filter fun x => x ≤ -12).length : ℕ) : ℚ)
        / ([-13, -11] : List ℚ).length :=
  droughtPercentage_per_sample_pass.1 [-13, -11] (by simp)

/-- A quality flag names the provenance of the samples that produced a
result; the repository's documented values. -/
inductive QualityFlag
  | SIMULATED
  | GEE_REALTIME
  | REAL_SAR_DATA
  | REAL_SAR_PROCESSED
deriving DecidableEq, Repr

/-- Modelled from the spec: the Soil Moisture Index Mapper (§4.6): a linear
map of `mean_sigma0_db` from the calibration range [-20 dB, -5 dB] onto
[0, 100], clamped at both ends for out-of-range inputs.  The concrete mapping
code (`api/index.py`) is not committed. -/
def soilMoistureIndex (m : ℚ) : ℚ :=
  max 0 (min 100 ((m + 20) * 100 / 15))

/-- C5: the soil moisture index mapper is monotone non-decreasing in
`mean_sigma0_db` and its output always lies inside [0, 100], for every
rational dB input, however far outside the calibration range. -/
theorem soilMoistureIndex_monotone_bounded (m₁ m₂ : ℚ) (h : m₁ ≤ m₂) :
    soilMoistureIndex m₁ ≤ soilMoistureIndex m₂ ∧
    0 ≤ soilMoistureIndex m₁ ∧ soilMoistureIndex m₁ ≤ 100 := by
  unfold soilMoistureIndex
  refine ⟨?_, le_max_left _ _, ?_⟩
  · exact max_le_max le_rfl (min_le_min le_rfl (by linarith))
  · exact max_le (by norm_num) (min_le_left _ _)

/-- Witness for C5 at the concrete boundary pair (-13 dB, -12 dB). -/
theorem soilMoistureIndex_monotone_bounded_witness :
    soilMoistureIndex (-13) ≤ soilMoistureIndex (-12) ∧
    0 ≤ soilMoistureIndex (-13) ∧ soilMoistureIndex (-13) ≤ 100 :=
  soilMoistureIndex_monotone_bounded (-13) (-12) (by norm_num)

/-- Modelled from the spec: the saturating sample-count score of the
Confidence Scorer (§4.8): n / (n + 20), increasing in n and tending to 1. -/
def countScore (n : ℕ) : ℚ := (n : ℚ) / ((n : ℚ) + 20)

/-- Modelled from the spec: the Confidence Scorer (§4.8): the saturating
count score, capped at 0.9 when the provenance is SIMULATED; real-data
provenance is uncapped.  The concrete code (`api/index.py`) is not
committed. -/
def confidence (n : ℕ) (flag : QualityFlag) : ℚ :=
  if flag = .SIMULATED then min (countScore n) (9 / 10) else countScore n

/-- C9: the confidence score always lies in [0, 1], is monotone
non-decreasing in the sample count with the provenance fixed, is capped at
0.9 for SIMULATED provenance, and real-data provenance can exceed 0.99. -/
theorem confidence_bounds_monotone_cap (n₁ n₂ : ℕ) (flag : QualityFlag)
    (h : n₁ ≤ n₂) :
    (0 ≤ confidence n₁ flag ∧ confidence n₁ flag ≤ 1) ∧
    confidence n₁ flag ≤ confidence n₂ flag ∧
    confidence n₁ .SIMULATED ≤ 9 / 10 ∧
    (99 / 100 : ℚ) ≤ confidence 2000 .GEE_REALTIME := by
  have hpos : ∀ n : ℕ, (0 : ℚ) < (n : ℚ) + 20 := fun n => by positivity
  have hscore0 : ∀ n : ℕ, 0 ≤ countScore n := fun n => by
    unfold countScore; positivity
  have hscore1 : ∀ n : ℕ, countScore n ≤ 1 := fun n => by
    unfold countScore
    rw [div_le_one (hpos n)]
    linarith
  have hmono : countScore n₁ ≤ countScore n₂ := by
    unfold countScore
    rw [div_le_div_iff (hpos n₁) (hpos n₂)]
    have : (n₁ : ℚ) ≤ (n₂ : ℚ) := by exact_mod_cast h
    nlinarith
  refine ⟨⟨?_, ?_⟩, ?_, ?_, ?_⟩
  · unfold confidence
    split_ifs
    · exact le_min (hscore0 n₁) (by norm_num)
    · exact hscore0 n₁
  · unfold confidence
    split_ifs
    · exact le_trans (min_le_left _ _) (hscore1 n₁)
    · exact hscore1 n₁
  · unfold confidence
    split_ifs
    · exact min_le_min hmono le_rfl
    · exact hmono
  · unfold confidence
    simp only [if_pos rfl]
    exact min_le_right _ _
  · unfold confidence
    rw [if_neg (by intro hc; cases hc)]
    norm_num [countScore]

/-- Witness for C9 at sample counts 10 ≤ 50 with SIMULATED provenance. -/
theorem confidence_bounds_monotone_cap_witness :
    (0 ≤ confidence 10 .SIMULATED ∧ confidence 10 .SIMULATED ≤ 1) ∧
    confidence 10 .SIMULATED ≤ confidence 50 .SIMULATED ∧
    confidence 10 .SIMULATED ≤ 9 / 10 ∧
    (99 / 100 : ℚ) ≤ confidence 2000 .GEE_REALTIME :=
  confidence_bounds_monotone_cap 10 50 .SIMULATED (by norm_num)

/-- Radar polarization of the request (VV default, VH alternative). -/
inductive Polarization
  | VV
  | VH
deriving DecidableEq, Repr

/-- The engine's structured error taxonomy (spec §7). -/
inductive EngineError
  | invalidGeometry
  | areaTooLarge
  | areaTooSmall
  | noDataAvailable
  | emptySample
  | timeout
deriving DecidableEq, Repr

/-- Smallest element of a dB sample (0 on the empty list, which the engine
rejects before reducing). -/
def listMin : List ℚ → ℚ
  | [] => 0
  | x :: xs => xs.foldl min x

/-- Largest element of a dB sample. -/
def listMax : List ℚ → ℚ
  | [] => 0
  | x :: xs => xs.foldl max x

/-- Median of a dB sample: middle element of the sorted sample, averaging the
two middle elements for even sizes. -/
def median (samples : List ℚ) : ℚ :=
  let sorted := samples.insertionSort (· ≤ ·)
  let n := sorted.length
  if n % 2 = 1 then sorted.getD (n / 2) 0
  else (sorted.getD (n / 2 - 1) 0 + sorted.getD (n / 2) 0) / 2

/-- The complete output record of one analysis (spec §3, `DroughtStatistics`;
mirrored by `DroughtStats` in `frontend/lib/api.ts`).  `var_sigma0_db` is the
square of the serialized `std_sigma0_db`. -/
structure DroughtStatistics where
  mean_sigma0_db : ℚ
  min_sigma0_db : ℚ
  max_sigma0_db : ℚ
  var_sigma0_db : ℚ
  median_sigma0_db : ℚ
  drought_percentage : ℚ
  drought_severity : DroughtSeverity
  soil_moisture_index : ℚ
  anomaly_db : Option ℚ
  baseline_mean_db : Option ℚ
  confidence : ℚ
  area_km2 : ℚ
  quality_flag : QualityFlag
  polarization : Polarization
deriving DecidableEq, Repr

instance {ε α : Type} [DecidableEq ε] [DecidableEq α] : DecidableEq (Except ε α) :=
  fun a b =>
    match a, b with
    | .error x, .error y =>
      if h : x = y then isTrue (by rw [h])
      else isFalse fun hc => by cases hc; exact h rfl
    | .ok x, .ok y =>
      if h : x = y then isTrue (by rw [h])
      else isFalse fun hc => by cases hc; exact h rfl
    | .error _, .ok _ => isFalse fun hc => by cases hc
    | .ok _, .error _ => isFalse fun hc => by cases hc

/-- The static seasonal baseline configuration (spec §4.7): an optional
baseline mean dB per (latitude band, month). -/
def BaselineTable : Type := Int → ℕ → Option ℚ

/-- Modelled from the spec: the Drought Analysis Engine core (§2, §4): given
the validator's area, the request's latitude band, month and polarization,
and the sampler's output (a flat dB sample plus its provenance flag), either
fail with `NoDataAvailable` on an empty sample or return one complete
`DroughtStatistics`.  The concrete routine
(`api/index.py:run_physics_analysis`) is not committed in the repository. -/
def analyze (table : BaselineTable) (band : Int) (month : ℕ) (area : ℚ)
    (pol : Polarization) (samples : List ℚ) (flag : QualityFlag) :
    Except EngineError DroughtStatistics :=
  if samples.isEmpty then .error .noDataAvailable
  else
    let μ := mean samples
    let base := table band month
    .ok
      { mean_sigma0_db := μ
        min_sigma0_db := listMin samples
        max_sigma0_db := listMax samples
        var_sigma0_db := sampleVariance samples
        median_sigma0_db := median samples
        drought_percentage := droughtPercentage samples
        drought_severity := classifySeverity μ
        soil_moisture_index := soilMoistureIndex μ
        anomaly_db := base.map fun b => μ - b
        baseline_mean_db := base
        confidence := confidence samples.length flag
        area_km2 := area
        quality_flag := flag
        polarization := pol }

/-- C3: an analysis whose sampling stage yields zero samples fails with the
structured error `NoDataAvailable` and returns no statistics record, and
every analysis result is all-or-nothing: either an explicit engine error or
one complete `DroughtStatistics`, never a partially-filled success. -/
theorem analyze_empty_noDataAvailable (table : BaselineTable) (band : Int)
    (month : ℕ) (area : ℚ) (pol : Polarization) (flag : QualityFlag) :
    analyze table band month area pol [] flag = .error .noDataAvailable ∧
    ∀ samples : List ℚ,
      (∃ e, analyze table band month area pol samples flag = .error e) ∨
      (∃ stats, analyze table band month area pol samples flag = .ok stats) := by
  constructor
  · rfl
  · intro samples
    cases hA : analyze table band month area pol samples flag with
    | error e => exact .inl ⟨e, rfl⟩
    | ok s => exact .inr ⟨s, rfl⟩

/-- C4: every successful analysis carries a populated `quality_flag`
(`quality_flag` is a mandatory field of `DroughtStatistics`), and it is
exactly the provenance flag produced by the sampler stage that supplied the
samples, threaded through the engine unchanged; the engine consumes a single
sampler output, so one result never mixes flags. -/
theorem analyze_quality_flag_threaded (table : BaselineTable) (band : Int)
    (month : ℕ) (area : ℚ) (pol : Polarization) (samples : List ℚ)
    (flag : QualityFlag) (stats : DroughtStatistics)
    (h : analyze table band month area pol samples flag = .ok stats) :
    stats.quality_flag = flag := by
  rw [analyze] at h
  by_cases hs : samples.isEmpty = true
  · rw [if_pos hs] at h
    cases h
  · rw [if_neg hs] at h
    cases h
    rfl

/-- The record the engine returns for the one-sample input `[-13]` with no
configured baseline, SIMULATED provenance and unit area. -/
def statsEx : DroughtStatistics :=
  { mean_sigma0_db := -13
    min_sigma0_db := -13
    max_sigma0_db := -13
    var_sigma0_db := 0
    median_sigma0_db := -13
    drought_percentage := 100
    drought_severity := .MODERATE
    soil_moisture_index := 140 / 3
    anomaly_db := none
    baseline_mean_db := none
    confidence := 1 / 21
    area_km2 := 1
    quality_flag := .SIMULATED
    polarization := .VV }

/-- Witness for C4: the concrete run on the sample `[-13]` with SIMULATED
provenance reports `quality_flag = SIMULATED`. -/
theorem analyze_quality_flag_threaded_witness : statsEx.quality_flag = .SIMULATED :=
  analyze_quality_flag_threaded (fun _ _ => none) 3 7 1 .VV [-13] .SIMULATED
    statsEx (by norm_num [analyze, statsEx, mean, sampleVariance, droughtPercentage, median,
      listMin, listMax, soilMoistureIndex, confidence, countScore, classifySeverity,
      DroughtSeverity.atLeastModerate, List.insertionSort, List.orderedInsert])

/-- C8: when the baseline table has no entry for the request's latitude band
and month, the result omits both `anomaly_db` and `baseline_mean_db`
(`none`, serialized as `null`, never a fabricated 0); when a baseline `b`
exists, `anomaly_db` is exactly `mean_sigma0_db - b` and `baseline_mean_db`
is `b`. -/
theorem analyze_anomaly_optional (table : BaselineTable) (band : Int)
    (month : ℕ) (area : ℚ) (pol : Polarization) (samples : List ℚ)
    (flag : QualityFlag) (stats : DroughtStatistics)
    (h : analyze table band month area pol samples flag = .ok stats) :
    (table band month = none →
      stats.anomaly_db = none ∧ stats.baseline_mean_db = none) ∧
    (∀ b : ℚ, table band month = some b →
      stats.anomaly_db = some (stats.mean_sigma0_db - b) ∧
      stats.baseline_mean_db = some b) := by
  rw [analyze] at h
  by_cases hs : samples.isEmpty = true
  · rw [if_pos hs] at h
    cases h
  · rw [if_neg hs] at h
    cases h
    constructor
    · intro hb
      simp [hb]
    · intro b hb
      simp [hb]

/-- The record the engine returns for the sample `[-13]` when the baseline
table yields `-11 dB` for the request's band and month. -/
def statsExB : DroughtStatistics :=
  { statsEx with anomaly_db := some (-2), baseline_mean_db := some (-11) }

/-- Witness for C8: with no configured baseline the fields are omitted, and
with baseline `-11 dB` the anomaly equals `mean - baseline = -2 dB`. -/
theorem analyze_anomaly_optional_witness :
    (statsEx.anomaly_db = none ∧ statsEx.baseline_mean_db = none) ∧
    (statsExB.anomaly_db = some (statsExB.mean_sigma0_db - (-11)) ∧
      statsExB.baseline_mean_db = some (-11)) := by
  constructor
  · exact (analyze_anomaly_optional (fun _ _ => none) 3 7 1 .VV [-13] .SIMULATED
      statsEx (by norm_num [analyze, statsEx, mean, sampleVariance, droughtPercentage, median,
      listMin, listMax, soilMoistureIndex, confidence, countScore, classifySeverity,
      DroughtSeverity.atLeastModerate, List.insertionSort, List.orderedInsert])).1 rfl
  · exact (analyze_anomaly_optional (fun _ _ => some (-11)) 3 7 1 .VV [-13]
      .SIMULATED statsExB (by norm_num [analyze, statsExB, statsEx, mean, sampleVariance, droughtPercentage,
      median, listMin, listMax, soilMoistureIndex, confidence, countScore,
      classifySeverity, DroughtSeverity.atLeastModerate, List.insertionSort,
      List.orderedInsert])).2 (-11) rfl

/-- One step of the linear congruential pseudo-random generator modelling the
simulated sampler's seeded draws (spec §4.2). -/
def lcgNext (s : ℕ) : ℕ := (1103515245 * s + 12345) % 2 ^ 31

/-- Iterated LCG stream from a seed. -/
def lcgIter (s : ℕ) : ℕ → ℕ
  | 0 => s
  | n + 1 => lcgNext (lcgIter s n)

/-- An analysis request (spec §3): closed lon/lat ring, temporal window
(represented here by its start and end months), polarization. -/
structure AnalysisRequest where
  ring : List (ℚ × ℚ)
  startMonth : ℕ
  endMonth : ℕ
  polarization : Polarization
deriving DecidableEq, Repr

/-- Centroid of the request ring: mean longitude and mean latitude. -/
def centroid (ring : List (ℚ × ℚ)) : ℚ × ℚ :=
  (mean (ring.map Prod.fst), mean (ring.map Prod.snd))

/-- Modelled from the spec: the seasonally adjusted mean dB of the simulated
sampler (§4.2), a function of centroid latitude and month only. -/
def seasonalMeanDb (lat : ℚ) (month : ℕ) : ℚ :=
  -12 + lat / 90 - (if 6 ≤ month ∧ month ≤ 8 then 2 else 0)

/-- Deterministic seed derived from the request's centroid and month. -/
def seedOf (req : AnalysisRequest) : ℕ :=
  let c := centroid req.ring
  c.1.num.natAbs + 7 * c.1.den + 31 * c.2.num.natAbs + 127 * c.2.den
    + 8191 * req.startMonth

/-- Speckle-like per-pixel noise in dB from one LCG draw: a value in
[-2, 2] in steps of 0.1. -/
def noiseDb (k : ℕ) : ℚ := ((k % 41 : ℕ) : ℚ) / 10 - 2

/-- Modelled from the spec: the simulated backscatter sampler (§4.2): a
deterministic seeded pseudo-random generator parameterized by the centroid
and the month, producing 64 draws around the seasonally adjusted mean with
per-pixel noise.  The concrete generator (`api/index.py`) is not
committed. -/
def simulatedSampler (req : AnalysisRequest) : List ℚ :=
  let c := centroid req.ring
  let base := seasonalMeanDb c.2 req.startMonth
  (List.range 64).map fun i => base + noiseDb (lcgIter (seedOf req) (i + 1))

/-- Latitude band of the baseline table: ten-degree bands. -/
def latBand (lat : ℚ) : Int := ⌊lat / 10⌋

/-- The full simulated-path run: engine core fed by the simulated sampler,
with the validator-computed area passed in; always tagged SIMULATED. -/
def analyzeSimulated (table : BaselineTable) (area : ℚ)
    (req : AnalysisRequest) : Except EngineError DroughtStatistics :=
  analyze table (latBand (centroid req.ring).2) req.startMonth area
    req.polarization (simulatedSampler req) .SIMULATED

/-- Two independent runs of the simulated-path engine on the same request. -/
def runTwice (table : BaselineTable) (area : ℚ) (req : AnalysisRequest) :
    Except EngineError DroughtStatistics × Except EngineError DroughtStatistics :=
  (analyzeSimulated table area req, analyzeSimulated table area req)

/-- C6: running the analysis twice with identical inputs against the
simulated sampler yields identical `drought_severity` and `quality_flag`
(indeed identical complete results), and with the sample fixed the whole
computation is a pure function of its inputs, so results are safely
cacheable. -/
theorem analyzeSimulated_two_run_deterministic (table : BaselineTable)
    (area : ℚ) (req : AnalysisRequest) :
    ((runTwice table area req).1.map fun s => (s.drought_severity, s.quality_flag))
      = ((runTwice table area req).2.map fun s => (s.drought_severity, s.quality_flag)) ∧
    (runTwice table area req).1 = (runTwice table area req).2 ∧
    ∀ (band : Int) (month : ℕ) (pol : Polarization) (samples : List ℚ)
      (flag : QualityFlag),
      analyze table band month area pol samples flag
        = analyze table band month area pol samples flag :=
  ⟨rfl, rfl, fun _ _ _ _ _ => rfl⟩

/-- Rational approximation of the sine of `x` degrees on [0, 180]
(Bhaskara's formula), used as the latitude weight of the equal-area
formula. -/
def sinDegQ (x : ℚ) : ℚ := 4 * x * (180 - x) / (40500 - x * (180 - x))

/-- Sine of a latitude in degrees, odd extension of `sinDegQ` to [-90, 90]. -/
def sinLatQ (φ : ℚ) : ℚ := if 0 ≤ φ then sinDegQ φ else -sinDegQ (-φ)

/-- Degrees-to-radians factor, with the rational approximation 355/113 of π. -/
def degToRad : ℚ := 355 / 113 / 180

/-- Mean Earth radius in km. -/
def earthRadiusKm : ℚ := 6371

/-- One edge's contribution to the equal-area (cylindrical equal-area)
shoelace sum over lon/lat degrees: Δλ · (sin φ₁ + sin φ₂) / 2. -/
def edgeTerm (p q : ℚ × ℚ) : ℚ := (q.1 - p.1) * (sinLatQ p.2 + sinLatQ q.2) / 2

/-- Modelled from the spec: the signed equal-area shoelace sum of a closed
ring (§4.1).  The closed ring with vertices v₀ … v₍ₙ₋₁₎ (first vertex
repeated at the end) is represented by its cyclic vertex map `Fin n → ℚ × ℚ`;
the sum runs over the n edges (vᵢ, vᵢ₊₁) with wrap-around. -/
def ringSignedSum {n : ℕ} [NeZero n] (v : Fin n → ℚ × ℚ) : ℚ :=
  ∑ i : Fin n, edgeTerm (v i) (v (i + 1))

/-- Modelled from the spec: the geodesic area of the polygon in km² (§4.1):
an equal-area formula over lon/lat degrees (latitude weighted by its sine),
not a planar Cartesian shoelace.  The concrete code (`api/index.py`) is not
committed. -/
def ringAreaKm2 {n : ℕ} [NeZero n] (v : Fin n → ℚ × ℚ) : ℚ :=
  earthRadiusKm ^ 2 * degToRad * |ringSignedSum v|

/-- C7: for every valid (non-degenerate) closed ring the computed `area_km2`
is strictly positive, and the area is invariant under rotation of the vertex
order of the same closed ring: starting the ring at a different vertex gives
the same area.  The formula weighs latitude by its sine (equal-area over
lon/lat degrees), not by a planar Cartesian shoelace. -/
theorem ringAreaKm2_positive_rotation_invariant {n : ℕ} [NeZero n]
    (v : Fin n → ℚ × ℚ) (k : Fin n) (hv : ringSignedSum v ≠ 0) :
    0 < ringAreaKm2 v ∧ ringAreaKm2 (fun i => v (i + k)) = ringAreaKm2 v := by
  have hrot : ringSignedSum (fun i => v (i + k)) = ringSignedSum v := by
    unfold ringSignedSum
    apply Fintype.sum_equiv (Equiv.addRight k)
    intro i
    rw [Equiv.coe_addRight, add_right_comm]
  constructor
  · unfold ringAreaKm2
    have h1 : (0 : ℚ) < earthRadiusKm ^ 2 * degToRad := by
      norm_num [earthRadiusKm, degToRad]
    exact mul_pos h1 (abs_pos.mpr hv)
  · unfold ringAreaKm2
    rw [hrot]

/-- The spec's scenario ring: the unit square (−6°E…−5°E, 37.5°N…38.5°N),
counter-clockwise, first vertex repeated implicitly by the cyclic map. -/
def squareRing : Fin 4 → ℚ × ℚ
  | 0 => (-6, 75 / 2)
  | 1 => (-5, 75 / 2)
  | 2 => (-5, 77 / 2)
  | 3 => (-6, 77 / 2)

/-- Witness for C7: the scenario square has positive area and rotating its
starting vertex by one leaves the area unchanged. -/
theorem ringAreaKm2_positive_rotation_invariant_witness :
    0 < ringAreaKm2 squareRing ∧
    ringAreaKm2 (fun i => squareRing (i + 1)) = ringAreaKm2 squareRing :=
  ringAreaKm2_positive_rotation_invariant squareRing 1
    (by norm_num [ringSignedSum, Fin.sum_univ_four, squareRing, edgeTerm,
      sinLatQ, sinDegQ])

/-- Job lifecycle states of `JobResult.status` in `frontend/lib/api.ts`. -/
inductive JobStatus
  | pending
  | processing
  | completed
  | failed
deriving DecidableEq, Repr

/-- The job record returned by `getJobStatusPublic` (`frontend/lib/api.ts`,
`JobResult`), reduced to the fields the poller inspects. -/
structure JobRecord where
  job_id : String
  status : JobStatus
deriving DecidableEq, Repr

/-- The poller's stop test from `frontend/lib/api.ts`:
`job.status === 'completed' || job.status === 'failed'`. -/
def JobStatus.isTerminal : JobStatus → Bool
  | .completed => true
  | .failed => true
  | .pending => false
  | .processing => false

/-- The polling loop of `pollJobUntilComplete` (`frontend/lib/api.ts`):
`getJob` is the sequence of `getJobStatusPublic` responses, `attempt` the
current attempt index and the fuel the remaining attempts (the `while
attempts < maxAttempts` loop).  Returns the loop's outcome together with the
number of status requests performed; the `onUpdate` callback and the
`intervalMs` sleep are effect-only and carry no data. -/
def pollLoop (getJob : ℕ → JobRecord) : ℕ → ℕ → Except String JobRecord × ℕ
  | _, 0 => (.error "Job polling timeout", 0)
  | attempt, r + 1 =>
    let job := getJob attempt
    if job.status.isTerminal then (.ok job, 1)
    else
      let rest := pollLoop getJob (attempt + 1) r
      (rest.1, rest.2 + 1)

/-- Default `maxAttempts` of `pollJobUntilComplete` in
`frontend/lib/api.ts`. -/
def defaultMaxAttempts : ℕ := 60

/-- `pollJobUntilComplete` from `frontend/lib/api.ts`: poll from attempt 0
with at most `maxAttempts` status requests. -/
def pollJobUntilComplete (getJob : ℕ → JobRecord) (maxAttempts : ℕ) :
    Except String JobRecord × ℕ :=
  pollLoop getJob 0 maxAttempts

/-- The loop never performs more requests than it has fuel. -/
theorem pollLoop_count_le (getJob : ℕ → JobRecord) :
    ∀ (r a : ℕ), (pollLoop getJob a r).2 ≤ r := by
  intro r
  induction r with
  | zero => intro a; exact le_rfl
  | succ r ih =>
    intro a
    unfold pollLoop
    by_cases h : (getJob a).status.isTerminal
    · simp [h]
    · simp only [h, if_neg, Bool.false_eq_true, if_false]
      exact Nat.succ_le_succ (ih (a + 1))

/-- If no polled status in the window is terminal, the loop times out after
exactly its fuel many requests. -/
theorem pollLoop_timeout (getJob : ℕ → JobRecord) :
    ∀ (r a : ℕ), (∀ i, i < r → (getJob (a + i)).status.isTerminal = false) →
      pollLoop getJob a r = (.error "Job polling timeout", r) := by
  intro r
  induction r with
  | zero => intro a _; rfl
  | succ r ih =>
    intro a h
    have h0 : (getJob a).status.isTerminal = false := by
      have := h 0 (Nat.succ_pos r)
      simpa using this
    unfold pollLoop
    simp only [h0, Bool.false_eq_true, if_false]
    have hrest : pollLoop getJob (a + 1) r = (.error "Job polling timeout", r) := by
      apply ih
      intro i hi
      have := h (i + 1) (Nat.succ_lt_succ hi)
      rwa [show a + (i + 1) = a + 1 + i by omega] at this
    rw [hrest]

/-- The loop returns the first terminally-polled record, after exactly
`i + 1` requests. -/
theorem pollLoop_first_terminal (getJob : ℕ → JobRecord) :
    ∀ (r a i : ℕ), i < r →
      (getJob (a + i)).status.isTerminal = true →
      (∀ k, k < i → (getJob (a + k)).status.isTerminal = false) →
      pollLoop getJob a r = (.ok (getJob (a + i)), i + 1) := by
  intro r
  induction r with
  | zero => intro a i hi; exact absurd hi (Nat.not_lt_zero i)
  | succ r ih =>
    intro a i hi hterm hmin
    cases i with
    | zero =>
      unfold pollLoop
      simp only [Nat.add_zero] at hterm
      simp [hterm]
    | succ j =>
      have h0 : (getJob a).status.isTerminal = false := by
        have := hmin 0 (Nat.succ_pos j)
        simpa using this
      unfold pollLoop
      simp only [h0, Bool.false_eq_true, if_false]
      have hrest : pollLoop getJob (a + 1) r = (.ok (getJob (a + 1 + j)), j + 1) := by
        apply ih
        · exact Nat.lt_of_succ_lt_succ hi
        · rwa [show a + 1 + j = a + (j + 1) by omega]
        · intro k hk
          have := hmin (k + 1) (Nat.succ_lt_succ hk)
          rwa [show a + (k + 1) = a + 1 + k by omega] at this
      rw [hrest]
      simp [show a + 1 + j = a + (j + 1) by omega]

/-- C10: `pollJobUntilComplete` always terminates (it is a total function of
its fuel): its default attempt budget is 60; it never performs more than
`maxAttempts` status requests; if some polled status inside the window is
terminal (`completed` or `failed`) it returns that first terminal job record
immediately after polling it; and if no polled status in the window is
terminal it performs exactly `maxAttempts` requests and fails with the error
"Job polling timeout". -/
theorem pollJobUntilComplete_terminates_bounded (getJob : ℕ → JobRecord)
    (maxAttempts i : ℕ) :
    defaultMaxAttempts = 60 ∧
    (pollJobUntilComplete getJob maxAttempts).2 ≤ maxAttempts ∧
    ((∀ k, k < maxAttempts → (getJob k).status.isTerminal = false) →
      pollJobUntilComplete getJob maxAttempts
        = (.error "Job polling timeout", maxAttempts)) ∧
    (i < maxAttempts → (getJob i).status.isTerminal = true →
      (∀ k, k < i → (getJob k).status.isTerminal = false) →
      pollJobUntilComplete getJob maxAttempts = (.ok (getJob i), i + 1)) := by
  refine ⟨rfl, pollLoop_count_le getJob maxAttempts 0, ?_, ?_⟩
  · intro h
    apply pollLoop_timeout
    intro k hk
    simpa using h k hk
  · intro hi hterm hmin
    have := pollLoop_first_terminal getJob maxAttempts 0 i hi
      (by simpa using hterm) (fun k hk => by simpa using hmin k hk)
    simpa using this

/-- A concrete response stream: processing twice, then completed. -/
def jobsEx (k : ℕ) : JobRecord :=
  ⟨"job-1", if k < 2 then .processing else .completed⟩

/-- Witness for C10: on the stream that completes at the third poll, the
poller returns the completed record after 3 of the 60 allowed requests. -/
theorem pollJobUntilComplete_terminates_bounded_witness :
    pollJobUntilComplete jobsEx 60 = (.ok ⟨"job-1", .completed⟩, 3) ∧
    (pollJobUntilComplete jobsEx 60).2 ≤ 60 := by
  have h := pollJobUntilComplete_terminates_bounded jobsEx 60 2
  exact ⟨h.2.2.2 (by norm_num) (by decide) (by decide), h.2.1⟩

end Aerisq
